import Mathlib

/-!
Verification development for the OpenAI status-monitor repository
(`src/app.py`, `src/status_monitor.py`).

Shallow embedding conventions:
* Parsed JSON payloads (the result of `request.json()` / `json.load`) are
  modelled by the inductive `Json`; `Json.null` plays the role of Python's
  `None` (which is what `json.loads` produces for JSON `null`). JSON numbers
  are modelled as integers (no claim involves fractional numbers).
* Python truthiness on such values is `truthy`.
* `dict.get` is `dictGet` (missing key gives `none`; on duplicate keys the
  last occurrence wins, matching `json.loads`).
* Code paths that raise an uncaught Python exception (AttributeError /
  TypeError / KeyError on values outside the expected shape) are modelled
  explicitly as an error / crash result.
* Feed timestamps (`dateutil.parser.parse(entry.published)`) are modelled as
  abstract ordered instants, i.e. natural numbers; formatting of a timestamp
  into the human-readable string is abstracted as `toString`.
-/

/-- Parsed JSON values, as produced by Python's `json` module
(`null` ↦ `None`, objects ↦ dicts, arrays ↦ lists). -/
inductive Json where
  | null : Json
  | bool : Bool → Json
  | num : Int → Json
  | str : String → Json
  | arr : List Json → Json
  | obj : List (String × Json) → Json
deriving Repr

/-- Python truthiness of a parsed JSON value (`bool(x)`):
`None`, `False`, `0`, `""`, `[]`, `{}` are falsy, everything else truthy. -/
def truthy : Json → Bool
  | Json.null => false
  | Json.bool b => b
  | Json.num n => n != 0
  | Json.str s => s != ""
  | Json.arr xs => !xs.isEmpty
  | Json.obj fs => !fs.isEmpty

/-- `d.get(k)` on a parsed JSON object: `none` when the key is absent.
`json.loads` keeps the last occurrence of a duplicated key, hence the
lookup on the reversed field list. -/
def dictGet (fs : List (String × Json)) (k : String) : Option Json :=
  fs.reverse.lookup k

mutual

/-- Python `repr` of a parsed JSON value (string escaping and quote
selection are simplified to single quotes around the raw characters). -/
def pyRepr : Json → String
  | Json.null => "None"
  | Json.bool b => if b then "True" else "False"
  | Json.num n => toString n
  | Json.str s => "\x27" ++ s ++ "\x27"
  | Json.arr xs => "[" ++ pyReprList xs ++ "]"
  | Json.obj fs => "\x7b" ++ pyReprFields fs ++ "\x7d"

/-- Comma-separated `repr` of list elements. -/
def pyReprList : List Json → String
  | [] => ""
  | [x] => pyRepr x
  | x :: y :: t => pyRepr x ++ ", " ++ pyReprList (y :: t)

/-- Comma-separated `repr` of dict entries. -/
def pyReprFields : List (String × Json) → String
  | [] => ""
  | [(k, v)] => "\x27" ++ k ++ "\x27: " ++ pyRepr v
  | (k, v) :: p :: t => "\x27" ++ k ++ "\x27: " ++ pyRepr v ++ ", " ++ pyReprFields (p :: t)

end

/-- Python `str` of a parsed JSON value, as applied by an f-string:
strings are taken verbatim, everything else via `repr`-like printing. -/
def pyStr : Json → String
  | Json.str s => s
  | j => pyRepr j

/-- Python `str.capitalize()`: first character upper-cased, the rest
lower-cased. -/
def pyCapitalize (s : String) : String :=
  match s.data with
  | [] => ""
  | c :: t => String.mk (Char.toUpper c :: t.map Char.toLower)

/-- Lower-casing of a text, character by character (`str.lower()`),
viewed as a character list. -/
def lowerChars (s : String) : List Char :=
  s.data.map Char.toLower

/-- Python substring containment `needle in hay` on character lists. -/
def strContains (needle : List Char) : List Char → Bool
  | [] => needle.isEmpty
  | c :: t => needle.isPrefixOf (c :: t) || strContains needle t

/-- `sum(1 for kw in keywords if kw in text_lower)`: the number of
keywords of a product occurring as substrings of the lowered text. -/
def kwScore (keywords : List String) (low : List Char) : Nat :=
  keywords.countP (fun kw => strContains kw.data low)

/-- One iteration of the `detect_product` loop: keep the candidate with the
strictly highest score seen so far (`if score > best_score`). -/
def detectStep (low : List Char) (acc : String × Nat) (p : String × List String) : String × Nat :=
  let score := kwScore p.2 low
  if acc.2 < score then (p.1, score) else acc

/-- The common shape of both `detect_product` functions: lower the text,
fold over the keyword table starting from the default label with score 0,
and return the best label. -/
def detectFromTable (tbl : List (String × List String)) (dflt : String) (text : String) : String :=
  (tbl.foldl (detectStep (lowerChars text)) (dflt, 0)).1

namespace App

/-- `PRODUCT_KEYWORDS` of `src/app.py`, in definition order. -/
def PRODUCT_KEYWORDS : List (String × List String) :=
  [ ("OpenAI API - Chat Completions",
      ["chat completions", "gpt-4o", "gpt-4.1", "gpt-4", "gpt-3.5"]),
    ("OpenAI API - Responses",
      ["responses api", "responses endpoint", "response api"]),
    ("OpenAI API - Assistants",
      ["assistants api", "assistant api"]),
    ("OpenAI API - Batch",
      ["batch api", "batch jobs", "batch endpoint"]),
    ("OpenAI API - Realtime",
      ["realtime api", "webrtc", "realtime connections"]),
    ("OpenAI API - Embeddings",
      ["embeddings api", "embedding api", "embeddings endpoint"]),
    ("OpenAI API - Moderation",
      ["moderation api", "moderations endpoint"]),
    ("OpenAI API - Vector Stores",
      ["vector stores api", "vector store"]),
    ("OpenAI API - Fine-tuning",
      ["fine-tuning", "fine tuning"]),
    ("OpenAI API - Images",
      ["images api", "image generation", "image api", "dall-e"]) ]

/-- `detect_product` of `src/app.py`. -/
def detect_product (text : String) : String :=
  detectFromTable PRODUCT_KEYWORDS "OpenAI Platform / Multiple services" text

end App

namespace Monitor

/-- `PRODUCT_KEYWORDS` of `src/status_monitor.py`, in definition order. -/
def PRODUCT_KEYWORDS : List (String × List String) :=
  [ ("Chat Completions API",
      ["chat completions", "gpt-4", "gpt-4o", "gpt-3.5", "chatgpt"]),
    ("Responses API",
      ["responses api", "response endpoint"]),
    ("Assistants API",
      ["assistants api", "assistant"]),
    ("Batch API",
      ["batch api", "batch job"]),
    ("Realtime API",
      ["realtime api", "realtime"]),
    ("Embeddings API",
      ["embedding", "embeddings"]),
    ("Moderation API",
      ["moderation", "moderate"]),
    ("Vector Stores API",
      ["vector store", "vector database"]),
    ("Fine-tuning API",
      ["fine-tune", "fine tuning"]),
    ("Image Generation API",
      ["image", "dall-e"]) ]

/-- `detect_product` of `src/status_monitor.py`. -/
def detect_product (text : String) : String :=
  detectFromTable PRODUCT_KEYWORDS "OpenAI Platform / Multiple Services" text

end Monitor

/-! ## Webhook receiver (`src/app.py`) -/

namespace App

/-- Outcome of one call of the webhook endpoint `handle_openai_status`:
`malformed detail` models `HTTPException(status_code=400, detail=...)`
(a client error, raised before any log line is emitted); `ok` models the
`{"ok": True}` acknowledgment together with the three data components of
the single log line passed to `logger.info` (product label, resolved
status description, latest update body); `crash` models an uncaught
Python exception escaping the handler (a server error, not a 400). -/
inductive HandlerResult where
  | malformed : String → HandlerResult
  | ok : String → Json → Json → HandlerResult
  | crash : HandlerResult
deriving Repr

/-- Is the outcome the 400-style client error? -/
def HandlerResult.isClientError : HandlerResult → Bool
  | HandlerResult.malformed _ => true
  | _ => false

/-- Did the handler acknowledge (and hence emit exactly one log line)? -/
def HandlerResult.isOk : HandlerResult → Bool
  | HandlerResult.ok _ _ _ => true
  | _ => false

/-- `extract_latest_update` of `src/app.py` applied to the fields of the
incident dict. `updates = incident.get("incident_updates") or []`; an empty
or falsy updates value yields the fallback string embedding the incident's
own status; otherwise `updates[-1]` is consulted: its `body` if truthy,
else a fallback embedding that update's status. A truthy non-list updates
value, or a last element that is not a dict, makes the Python code raise
(`updates[-1]` / `latest.get` on an unsupported value), modelled as
`Except.error ()`. -/
def extract_latest_update (ifs : List (String × Json)) : Except Unit Json :=
  let updates0 := (dictGet ifs "incident_updates").getD Json.null
  let updates := if truthy updates0 then updates0 else Json.arr []
  if truthy updates = false then
    Except.ok (Json.str ("Incident status: " ++ pyStr ((dictGet ifs "status").getD (Json.str "unknown"))))
  else
    match updates with
    | Json.arr xs =>
      match xs.getLast? with
      | none => Except.error ()
      | some (Json.obj lfs) =>
        let body := (dictGet lfs "body").getD Json.null
        if truthy body then Except.ok body
        else Except.ok (Json.str ("Incident status: " ++ pyStr ((dictGet lfs "status").getD (Json.str "unknown"))))
      | some _ => Except.error ()
    | _ => Except.error ()

/-- The status-description resolution expression of `handle_openai_status`:
`page_status_desc or (impact.capitalize() + " impact" if impact else None)
or incident_status.capitalize()`, with Python's short-circuit `or` on
truthiness. `.capitalize()` on a non-string raises, modelled as
`Except.error ()`. -/
def resolve_status_description (page_status_desc impact incident_status : Json) : Except Unit Json :=
  if truthy page_status_desc then Except.ok page_status_desc
  else
    match (if truthy impact then
             (match impact with
              | Json.str s => Except.ok (Json.str (pyCapitalize s ++ " impact"))
              | _ => Except.error ())
           else Except.ok Json.null : Except Unit Json) with
    | Except.error _ => Except.error ()
    | Except.ok b =>
      if truthy b then Except.ok b
      else
        match incident_status with
        | Json.str s => Except.ok (Json.str (pyCapitalize s))
        | _ => Except.error ()

/-- `format_log_line` of `src/app.py`, with the wall-clock timestamp
string passed in as a parameter (the code reads `datetime.utcnow()`). -/
def format_log_line (ts product status_description latest_body : String) : String :=
  "[" ++ ts ++ "] Product: " ++ product ++ "\n" ++
  "Status: " ++ status_description ++ " - " ++ latest_body ++ "\n" ++
  String.mk (List.replicate 80 '-')

/-- `handle_openai_status` of `src/app.py` on the parse result of the
request body: `none` models a body that is not valid JSON (the `try`
around `request.json()` turns it into a 400 "Invalid JSON"); `some j`
models a body parsing to the JSON value `j`. A body that parses to a
non-object makes `payload.get` raise AttributeError (uncaught: `crash`,
a server error). A falsy `incident` member (missing, null, `{}`, ...)
gives the 400 "No incident object in payload"; past that check, the
field extraction, `extract_latest_update`, the product detection on
`f"{incident_name} {latest_body}"`, and the status-description
resolution run, crashing where the Python code would raise. -/
def handle_openai_status (parsed : Option Json) : HandlerResult :=
  match parsed with
  | none => HandlerResult.malformed "Invalid JSON"
  | some payload =>
    match payload with
    | Json.obj fields =>
      let incident := (dictGet fields "incident").getD Json.null
      let page := (dictGet fields "page").getD (Json.obj [])
      if truthy incident = false then
        HandlerResult.malformed "No incident object in payload"
      else
        match incident, page with
        | Json.obj ifs, Json.obj pfs =>
          let incident_name := (dictGet ifs "name").getD (Json.str "Unknown incident")
          let incident_status := (dictGet ifs "status").getD (Json.str "unknown")
          let page_status_desc := (dictGet pfs "status_description").getD Json.null
          let impact := (dictGet ifs "impact").getD Json.null
          match extract_latest_update ifs with
          | Except.error _ => HandlerResult.crash
          | Except.ok latest_body =>
            let combined_text := pyStr incident_name ++ " " ++ pyStr latest_body
            let product := detect_product combined_text
            match resolve_status_description page_status_desc impact incident_status with
            | Except.error _ => HandlerResult.crash
            | Except.ok status_description =>
              HandlerResult.ok product status_description latest_body
        | _, _ => HandlerResult.crash
    | _ => HandlerResult.crash

/-- Shape of an `incident_updates` value on which `extract_latest_update`
cannot raise: absent/falsy, or a list of dicts. -/
def validUpdates : Json → Bool
  | Json.null => true
  | Json.bool b => !b
  | Json.num n => n == 0
  | Json.str s => s == ""
  | Json.arr xs => xs.all (fun u => match u with | Json.obj _ => true | _ => false)
  | Json.obj fs => fs.isEmpty

/-- Payloads of the documented webhook shape: a JSON object whose
`incident` member is a non-empty object with a string `status` (when
present), a string-or-null `impact` (when present) and well-shaped
`incident_updates`, and whose `page` member (when present) is an
object. On these the handler cannot raise. -/
def validPayload : Json → Bool
  | Json.obj fields =>
    (match (dictGet fields "incident").getD Json.null with
     | Json.obj ifs =>
       !ifs.isEmpty &&
       (match dictGet ifs "status" with
        | none => true
        | some (Json.str _) => true
        | some _ => false) &&
       (match dictGet ifs "impact" with
        | none => true
        | some Json.null => true
        | some (Json.str _) => true
        | some _ => false) &&
       validUpdates ((dictGet ifs "incident_updates").getD Json.null)
     | _ => false) &&
    (match dictGet fields "page" with
     | none => true
     | some (Json.obj _) => true
     | some _ => false)
  | _ => false

end App

/-! ## Feed poller and log store (`src/status_monitor.py`) -/

namespace Monitor

/-- One feed entry as seen by `track_status`: the parsed publish
timestamp (an abstract ordered instant), the title and the summary. -/
structure Entry where
  published : Nat
  title : String
  summary : String
deriving Repr, DecidableEq

/-- The four-field record built by `print_incident` and appended to the
JSON log. -/
structure LogRecord where
  timestamp : String
  product : String
  event : String
  status : String
deriving Repr, DecidableEq

/-- The log data `print_incident` derives from a feed entry (timestamp
formatting abstracted as `toString`). -/
def mkRecord (e : Entry) : LogRecord :=
  { timestamp := toString e.published
    product := detect_product (e.title ++ " " ++ e.summary)
    event := e.title
    status := e.summary }

/-- One cycle of the `track_status` loop on a fetched snapshot
(`feed.entries`), explicit in the `last_seen` state: an empty feed is
skipped; on the first successful fetch `last_seen` is initialized from
the newest entry (`feed.entries[0]`) and no incident is reported; later
a strictly greater newest timestamp reports the entry and advances
`last_seen`, anything else is ignored. -/
def pollStep (last_seen : Option Nat) (entries : List Entry) : Option Nat × Option Entry :=
  match entries with
  | [] => (last_seen, none)
  | newest :: _ =>
    match last_seen with
    | none => (some newest.published, none)
    | some ls =>
      if ls < newest.published then (some newest.published, some newest)
      else (some ls, none)

/-- A run of consecutive poll cycles over a list of feed snapshots,
collecting the entries reported as new incidents in order. -/
def pollRun (last_seen : Option Nat) : List (List Entry) → Option Nat × List Entry
  | [] => (last_seen, [])
  | snap :: rest =>
    let st := pollStep last_seen snap
    let fin := pollRun st.1 rest
    (fin.1, st.2.toList ++ fin.2)

/-- JSON encoding of a log record as built by `print_incident`. -/
def recordJson (r : LogRecord) : Json :=
  Json.obj [("timestamp", Json.str r.timestamp), ("product", Json.str r.product),
            ("event", Json.str r.event), ("status", Json.str r.status)]

/-- Decoding a log record back from its JSON form (the read-back
direction of the round-trip property). -/
def decodeRecord : Json → Option LogRecord
  | Json.obj [("timestamp", Json.str t), ("product", Json.str p),
              ("event", Json.str e), ("status", Json.str s)] =>
    some { timestamp := t, product := p, event := e, status := s }
  | _ => none

/-- `log_to_json` of `src/status_monitor.py`, explicit in the state of
the log file. The file state is the parsed content: `none` when the file
does not exist, `some j` when it holds the JSON value `j`. A missing
file is first initialized to the empty array; then the whole existing
array is read, the record is appended, and the whole array is written
back. A file whose content is not a JSON array makes `existing.append`
raise (modelled as `Except.error ()`). -/
def log_to_json (file : Option Json) (data : Json) : Except Unit Json :=
  let initialized := file.getD (Json.arr [])
  match initialized with
  | Json.arr existing => Except.ok (Json.arr (existing ++ [data]))
  | _ => Except.error ()

/-- Appending a list of records to the log file one `log_to_json` call
at a time. -/
def appendRun (file : Option Json) : List LogRecord → Except Unit Json
  | [] => Except.ok (file.getD (Json.arr []))
  | r :: rs =>
    match log_to_json file (recordJson r) with
    | Except.error e => Except.error e
    | Except.ok j => appendRun (some j) rs

end Monitor

/-! ## Classifier lemmas -/

/-- If no remaining table entry beats the accumulated best score, the
`detect_product` fold leaves the accumulator unchanged. -/
theorem foldl_detect_keep (low : List Char) (acc : String × Nat)
    (l : List (String × List String))
    (h : ∀ p ∈ l, kwScore p.2 low ≤ acc.2) :
    l.foldl (detectStep low) acc = acc := by
  induction l with
  | nil => rfl
  | cons p t ih =>
    have hp : kwScore p.2 low ≤ acc.2 := h p (List.mem_cons_self p t)
    have hstep : detectStep low acc p = acc := by
      unfold detectStep
      exact if_neg (Nat.not_lt.mpr hp)
    rw [List.foldl_cons, hstep]
    exact ih (fun q hq => h q (List.mem_cons_of_mem p hq))

/-- If every remaining entry scores below `s` and the accumulated best
score is below `s`, the fold's best score stays below `s`. -/
theorem foldl_detect_lt (low : List Char) (s : Nat)
    (l : List (String × List String)) (acc : String × Nat)
    (hacc : acc.2 < s)
    (h : ∀ p ∈ l, kwScore p.2 low < s) :
    (l.foldl (detectStep low) acc).2 < s := by
  induction l generalizing acc with
  | nil => exact hacc
  | cons p t ih =>
    rw [List.foldl_cons]
    refine ih (detectStep low acc p) ?_ (fun q hq => h q (List.mem_cons_of_mem p hq))
    unfold detectStep
    by_cases hc : acc.2 < kwScore p.2 low
    · rw [if_pos hc]
      exact h p (List.mem_cons_self p t)
    · rw [if_neg hc]
      exact hacc

/-- The `detect_product` fold over any table returns the label of the
first entry attaining the (positive) top score: every earlier entry
scores strictly less, every later entry at most as much. -/
theorem detectFromTable_first_max (text : String) (dflt : String)
    (l₁ l₂ : List (String × List String)) (nI : String) (kI : List String)
    (hpos : 0 < kwScore kI (lowerChars text))
    (hlt : ∀ p ∈ l₁, kwScore p.2 (lowerChars text) < kwScore kI (lowerChars text))
    (hle : ∀ p ∈ l₂, kwScore p.2 (lowerChars text) ≤ kwScore kI (lowerChars text)) :
    detectFromTable (l₁ ++ (nI, kI) :: l₂) dflt text = nI := by
  unfold detectFromTable
  rw [List.foldl_append, List.foldl_cons]
  have h1 : (l₁.foldl (detectStep (lowerChars text)) (dflt, 0)).2 < kwScore kI (lowerChars text) :=
    foldl_detect_lt (lowerChars text) _ l₁ (dflt, 0) hpos hlt
  have hstep : detectStep (lowerChars text) (l₁.foldl (detectStep (lowerChars text)) (dflt, 0)) (nI, kI)
      = (nI, kwScore kI (lowerChars text)) := by
    unfold detectStep
    exact if_pos h1
  rw [hstep, foldl_detect_keep (lowerChars text) (nI, kwScore kI (lowerChars text)) l₂ (fun q hq => hle q hq)]

/-- A product whose keywords all miss the lowered text scores zero. -/
theorem kwScore_eq_zero (kws : List String) (low : List Char)
    (h : ∀ kw ∈ kws, strContains kw.data low = false) :
    kwScore kws low = 0 := by
  unfold kwScore
  rw [List.countP_eq_zero]
  intro kw hkw
  simp [h kw hkw]

/-- C2: when two products' keyword sets tie at a strictly positive,
maximal score (every earlier-defined product scoring strictly less, so
that these two are the best), `detect_product` of `src/app.py` keeps the
earlier-defined of the two labels: the strict `score > best_score`
update never replaces the first maximal entry by a later tie. -/
theorem classifier_tie_keeps_earlier (text : String)
    (l₁ l₂ l₃ : List (String × List String)) (nI nJ : String) (kI kJ : List String)
    (htbl : App.PRODUCT_KEYWORDS = l₁ ++ (nI, kI) :: (l₂ ++ (nJ, kJ) :: l₃))
    (htie : kwScore kJ (lowerChars text) = kwScore kI (lowerChars text))
    (hpos : 0 < kwScore kI (lowerChars text))
    (hlt : ∀ p ∈ l₁, kwScore p.2 (lowerChars text) < kwScore kI (lowerChars text))
    (hle : ∀ p ∈ l₂ ++ l₃, kwScore p.2 (lowerChars text) ≤ kwScore kI (lowerChars text)) :
    App.detect_product text = nI := by
  unfold App.detect_product
  rw [htbl]
  refine detectFromTable_first_max text _ l₁ (l₂ ++ (nJ, kJ) :: l₃) nI kI hpos hlt ?_
  intro q hq
  rcases List.mem_append.mp hq with h | h
  · exact hle q (List.mem_append_left l₃ h)
  · rcases List.mem_cons.mp h with h | h
    · rw [h]
      exact le_of_eq htie
    · exact hle q (List.mem_append_right l₂ h)

/-- C2 witness: "batch api realtime api" triggers exactly one keyword of
the Batch product and one of the Realtime product (and none of any other
product); the earlier-defined Batch label wins the tie. -/
theorem classifier_tie_keeps_earlier_witness :
    App.detect_product "batch api realtime api" = "OpenAI API - Batch" :=
  classifier_tie_keeps_earlier "batch api realtime api"
    [ ("OpenAI API - Chat Completions",
        ["chat completions", "gpt-4o", "gpt-4.1", "gpt-4", "gpt-3.5"]),
      ("OpenAI API - Responses",
        ["responses api", "responses endpoint", "response api"]),
      ("OpenAI API - Assistants",
        ["assistants api", "assistant api"]) ]
    []
    [ ("OpenAI API - Embeddings",
        ["embeddings api", "embedding api", "embeddings endpoint"]),
      ("OpenAI API - Moderation",
        ["moderation api", "moderations endpoint"]),
      ("OpenAI API - Vector Stores",
        ["vector stores api", "vector store"]),
      ("OpenAI API - Fine-tuning",
        ["fine-tuning", "fine tuning"]),
      ("OpenAI API - Images",
        ["images api", "image generation", "image api", "dall-e"]) ]
    "OpenAI API - Batch" "OpenAI API - Realtime"
    ["batch api", "batch jobs", "batch endpoint"]
    ["realtime api", "webrtc", "realtime connections"]
    rfl (by decide) (by decide) (by decide) (by decide)

/-- C3: a text none of whose lowered characters contain any configured
keyword of either keyword table as a substring makes every product score
zero, so both `detect_product` functions return their catch-all default
label. -/
theorem classifier_no_keyword_default (text : String)
    (hA : ∀ p ∈ App.PRODUCT_KEYWORDS, ∀ kw ∈ p.2, strContains kw.data (lowerChars text) = false)
    (hM : ∀ p ∈ Monitor.PRODUCT_KEYWORDS, ∀ kw ∈ p.2, strContains kw.data (lowerChars text) = false) :
    App.detect_product text = "OpenAI Platform / Multiple services" ∧
    Monitor.detect_product text = "OpenAI Platform / Multiple Services" := by
  constructor
  · unfold App.detect_product detectFromTable
    rw [foldl_detect_keep (lowerChars text) _ App.PRODUCT_KEYWORDS
      (fun p hp => le_of_eq (kwScore_eq_zero p.2 (lowerChars text) (hA p hp)))]
  · unfold Monitor.detect_product detectFromTable
    rw [foldl_detect_keep (lowerChars text) _ Monitor.PRODUCT_KEYWORDS
      (fun p hp => le_of_eq (kwScore_eq_zero p.2 (lowerChars text) (hM p hp)))]

/-- C3 witness: "hello world" contains no keyword of either table and is
classified as the catch-all default by both entry points. -/
theorem classifier_no_keyword_default_witness :
    App.detect_product "hello world" = "OpenAI Platform / Multiple services" ∧
    Monitor.detect_product "hello world" = "OpenAI Platform / Multiple Services" :=
  classifier_no_keyword_default "hello world" (by decide) (by decide)

/-- C4: on the combined text of the incident name "Chat Completions API
latency" and the latest update body "Investigating reports of elevated
latency in gpt-4o responses" (combined exactly as `handle_openai_status`
builds `combined_text`), both classifiers select their
Chat-Completions-family label, and the winning label's keyword set
scores strictly more than one hit (it scores "chat completions",
"gpt-4o" and "gpt-4"). -/
theorem classifier_chat_completions_example :
    App.detect_product
        ("Chat Completions API latency" ++ " " ++ "Investigating reports of elevated latency in gpt-4o responses")
      = "OpenAI API - Chat Completions" ∧
    Monitor.detect_product
        ("Chat Completions API latency" ++ " " ++ "Investigating reports of elevated latency in gpt-4o responses")
      = "Chat Completions API" ∧
    1 < kwScore (App.PRODUCT_KEYWORDS.headD ("", [])).2
        (lowerChars ("Chat Completions API latency" ++ " " ++ "Investigating reports of elevated latency in gpt-4o responses")) ∧
    1 < kwScore (Monitor.PRODUCT_KEYWORDS.headD ("", [])).2
        (lowerChars ("Chat Completions API latency" ++ " " ++ "Investigating reports of elevated latency in gpt-4o responses")) := by
  refine ⟨by decide, by decide, by decide, by decide⟩

/-! ## Feed-poller lemmas -/

/-- Invariant of a poll run from an initialized Last-Seen value: the final
Last-Seen is still initialized and has not decreased, and the timestamps
of the reported entries rise strictly from the starting value. -/
theorem pollRun_invariant (feeds : List (List Monitor.Entry)) (ls : Nat) :
    ∃ ls2, (Monitor.pollRun (some ls) feeds).1 = some ls2 ∧ ls ≤ ls2 ∧
      List.Chain (fun a b => a < b) ls ((Monitor.pollRun (some ls) feeds).2.map Monitor.Entry.published) := by
  induction feeds generalizing ls with
  | nil => exact ⟨ls, rfl, le_refl ls, List.Chain.nil⟩
  | cons snap rest ih =>
    cases snap with
    | nil =>
      obtain ⟨ls2, h1, h2, h3⟩ := ih ls
      exact ⟨ls2, by simpa [Monitor.pollRun, Monitor.pollStep] using h1, h2,
        by simpa [Monitor.pollRun, Monitor.pollStep] using h3⟩
    | cons e t =>
      by_cases hc : ls < e.published
      · obtain ⟨ls2, h1, h2, h3⟩ := ih e.published
        refine ⟨ls2, ?_, le_of_lt (lt_of_lt_of_le hc h2), ?_⟩
        · simpa [Monitor.pollRun, Monitor.pollStep, hc] using h1
        · simp only [Monitor.pollRun, Monitor.pollStep, if_pos hc]
          simpa [List.chain_cons, hc] using h3
      · obtain ⟨ls2, h1, h2, h3⟩ := ih ls
        exact ⟨ls2, by simpa [Monitor.pollRun, Monitor.pollStep, hc] using h1, h2,
          by simpa [Monitor.pollRun, Monitor.pollStep, hc] using h3⟩

/-- From an uninitialized Last-Seen, the reported timestamps of a whole
run are strictly increasing: no timestamp is ever reported twice, and an
equal timestamp never produces a report. -/
theorem pollRun_none_chain (feeds : List (List Monitor.Entry)) :
    List.Chain' (fun a b => a < b) ((Monitor.pollRun none feeds).2.map Monitor.Entry.published) := by
  induction feeds with
  | nil => simp [Monitor.pollRun]
  | cons snap rest ih =>
    cases snap with
    | nil => simpa [Monitor.pollRun, Monitor.pollStep] using ih
    | cons e t =>
      obtain ⟨ls2, h1, h2, h3⟩ := pollRun_invariant rest e.published
      have : List.Chain' (fun a b => a < b)
          ((Monitor.pollRun (some e.published) rest).2.map Monitor.Entry.published) := by
        cases hmap : (Monitor.pollRun (some e.published) rest).2.map Monitor.Entry.published with
        | nil => simp
        | cons b l =>
          rw [hmap] at h3
          exact (List.chain_cons.mp h3).2
      simpa [Monitor.pollRun, Monitor.pollStep] using this

/-- C1: over snapshots whose newest entries carry timestamps
T1 < T2 = T2 < T3, the poll loop reports exactly two new incidents — none
for the T1 baseline, one when T2 first appears, none when T2 repeats, and
one for T3 — so exactly the records of the first-T2 entry and the T3
entry are appended; and in any run the reported timestamps are strictly
increasing, so a Log Record is appended at most once per distinct
strictly increasing feed timestamp and an equal timestamp never triggers
one. -/
theorem poller_two_records_strict_increase (T1 T2 T3 : Nat)
    (e1 e2 e2x e3 : Monitor.Entry) (r1 r2 r2x r3 : List Monitor.Entry)
    (feeds : List (List Monitor.Entry))
    (h12 : T1 < T2) (h23 : T2 < T3)
    (hp1 : e1.published = T1) (hp2 : e2.published = T2)
    (hp2x : e2x.published = T2) (hp3 : e3.published = T3) :
    (Monitor.pollRun none [e1 :: r1, e2 :: r2, e2x :: r2x, e3 :: r3]).2.map Monitor.mkRecord
      = [Monitor.mkRecord e2, Monitor.mkRecord e3] ∧
    List.Chain' (fun a b => a < b) ((Monitor.pollRun none feeds).2.map Monitor.Entry.published) := by
  refine ⟨?_, pollRun_none_chain feeds⟩
  simp [Monitor.pollRun, Monitor.pollStep, hp1, hp2, hp2x, hp3, h12, h23, lt_irrefl]

/-- C1 witness: a concrete run with timestamps 1 < 2 = 2 < 3 produces
exactly the two records of the first entry at 2 and the entry at 3. -/
theorem poller_two_records_strict_increase_witness :
    (Monitor.pollRun none
        [[⟨1, "a", "sa"⟩], [⟨2, "b", "sb"⟩], [⟨2, "b", "sb"⟩], [⟨3, "c", "sc"⟩]]).2.map Monitor.mkRecord
      = [Monitor.mkRecord ⟨2, "b", "sb"⟩, Monitor.mkRecord ⟨3, "c", "sc"⟩] ∧
    List.Chain' (fun a b => a < b)
      ((Monitor.pollRun none
        [[⟨1, "a", "sa"⟩], [⟨2, "b", "sb"⟩], [⟨2, "b", "sb"⟩], [⟨3, "c", "sc"⟩]]).2.map Monitor.Entry.published) :=
  poller_two_records_strict_increase 1 2 3
    ⟨1, "a", "sa"⟩ ⟨2, "b", "sb"⟩ ⟨2, "b", "sb"⟩ ⟨3, "c", "sc"⟩ [] [] [] []
    [[⟨1, "a", "sa"⟩], [⟨2, "b", "sb"⟩], [⟨2, "b", "sb"⟩], [⟨3, "c", "sc"⟩]]
    (by decide) (by decide) rfl rfl rfl rfl

/-- C10: the Last-Seen timestamp is monotone — an empty feed leaves the
state unchanged (initialized or not), a newest timestamp not exceeding
Last-Seen leaves it unchanged and reports nothing, a strictly greater
one replaces it (reporting the entry), and across any whole run an
initialized Last-Seen never decreases and never becomes uninitialized. -/
theorem last_seen_monotone (ls : Nat) (e egt : Monitor.Entry)
    (t tgt : List Monitor.Entry) (feeds : List (List Monitor.Entry))
    (hle : e.published ≤ ls) (hgt : ls < egt.published) :
    Monitor.pollStep (some ls) [] = (some ls, none) ∧
    Monitor.pollStep none [] = (none, none) ∧
    Monitor.pollStep (some ls) (e :: t) = (some ls, none) ∧
    Monitor.pollStep (some ls) (egt :: tgt) = (some egt.published, some egt) ∧
    (∃ ls2, (Monitor.pollRun (some ls) feeds).1 = some ls2 ∧ ls ≤ ls2) := by
  refine ⟨rfl, rfl, ?_, ?_, ?_⟩
  · simp [Monitor.pollStep, Nat.not_lt.mpr hle]
  · simp [Monitor.pollStep, hgt]
  · obtain ⟨ls2, h1, h2, _⟩ := pollRun_invariant feeds ls
    exact ⟨ls2, h1, h2⟩

/-- C10 witness: with Last-Seen 5, an entry at 4 changes nothing, an
entry at 7 advances the state to 7, and a two-snapshot run never lowers
the state below 5. -/
theorem last_seen_monotone_witness :
    Monitor.pollStep (some 5) [] = (some 5, none) ∧
    Monitor.pollStep none [] = (none, none) ∧
    Monitor.pollStep (some 5) [⟨4, "d", "sd"⟩] = (some 5, none) ∧
    Monitor.pollStep (some 5) [⟨7, "e", "se"⟩] = (some 7, some ⟨7, "e", "se"⟩) ∧
    (∃ ls2, (Monitor.pollRun (some 5) [[⟨4, "d", "sd"⟩], [⟨7, "e", "se"⟩]]).1 = some ls2 ∧ 5 ≤ ls2) :=
  last_seen_monotone 5 ⟨4, "d", "sd"⟩ ⟨7, "e", "se"⟩ [] []
    [[⟨4, "d", "sd"⟩], [⟨7, "e", "se"⟩]] (by decide) (by decide)

/-! ## Log-store lemmas -/

/-- Appending records one at a time to a file holding a JSON array keeps
the array and extends it in order. -/
theorem appendRun_arr (rs : List Monitor.LogRecord) (xs : List Json) :
    Monitor.appendRun (some (Json.arr xs)) rs
      = Except.ok (Json.arr (xs ++ rs.map Monitor.recordJson)) := by
  induction rs generalizing xs with
  | nil => simp [Monitor.appendRun]
  | cons r t ih =>
    simp [Monitor.appendRun, Monitor.log_to_json, ih (xs ++ [Monitor.recordJson r])]

/-- Decoding inverts the record encoding used by `print_incident`. -/
theorem decodeRecord_recordJson (r : Monitor.LogRecord) :
    Monitor.decodeRecord (Monitor.recordJson r) = some r := rfl

/-- C8: starting from a non-existent log file (first initialized to the
empty array), sequentially appending N records via `log_to_json` — each
call reading the whole existing array, appending, and rewriting it —
leaves the file holding exactly the JSON array of those N records in
append order, and decoding each array element recovers the record with
all four fields (timestamp, product, event, status) intact. -/
theorem log_store_roundtrip (rs : List Monitor.LogRecord) :
    Monitor.appendRun none rs = Except.ok (Json.arr (rs.map Monitor.recordJson)) ∧
    (rs.map Monitor.recordJson).length = rs.length ∧
    (rs.map Monitor.recordJson).map Monitor.decodeRecord = rs.map some := by
  refine ⟨?_, by rw [List.length_map], ?_⟩
  · cases rs with
    | nil => rfl
    | cons r t =>
      simp [Monitor.appendRun, Monitor.log_to_json, appendRun_arr t [Monitor.recordJson r]]
  · rw [List.map_map]
    exact List.map_congr_left (fun r _ => decodeRecord_recordJson r)

/-! ## Webhook-receiver lemmas -/

/-- Did an `Except` computation succeed (no Python exception raised)? -/
def exceptOk : Except Unit Json → Bool
  | Except.ok _ => true
  | Except.error _ => false

/-- A successful `Except` computation has a result value. -/
theorem exists_of_exceptOk (x : Except Unit Json) (h : exceptOk x = true) :
    ∃ v, x = Except.ok v := by
  cases x with
  | ok v => exact ⟨v, rfl⟩
  | error e => simp [exceptOk] at h

/-- A two-way branch between two successful results succeeds. -/
theorem exceptOk_ite_ok (c : Prop) [Decidable c] (a b : Json) :
    exceptOk (if c then Except.ok a else Except.ok b) = true := by
  split <;> rfl

/-- On a well-shaped `incident_updates` value (absent, falsy, or a list
of dicts), `extract_latest_update` cannot raise. -/
theorem extract_ok_of_validUpdates (ifs : List (String × Json))
    (h : App.validUpdates ((dictGet ifs "incident_updates").getD Json.null) = true) :
    exceptOk (App.extract_latest_update ifs) = true := by
  cases hu : (dictGet ifs "incident_updates").getD Json.null with
  | null => simp [App.extract_latest_update, hu, truthy, exceptOk]
  | bool b =>
    rw [hu] at h
    have hb : b = false := by simpa [App.validUpdates] using h
    simp [App.extract_latest_update, hu, hb, truthy, exceptOk]
  | num n =>
    rw [hu] at h
    have hn : n = 0 := by simpa [App.validUpdates] using h
    simp [App.extract_latest_update, hu, hn, truthy, exceptOk]
  | str s =>
    rw [hu] at h
    have hs : s = "" := by simpa [App.validUpdates] using h
    simp [App.extract_latest_update, hu, hs, truthy, exceptOk]
  | obj fs =>
    rw [hu] at h
    have hf : fs = [] := by simpa [App.validUpdates, List.isEmpty_iff] using h
    simp [App.extract_latest_update, hu, hf, truthy, exceptOk]
  | arr xs =>
    rw [hu] at h
    cases xs with
    | nil => simp [App.extract_latest_update, hu, truthy, exceptOk]
    | cons a t =>
      have hlast : (a :: t).getLast? = some ((a :: t).getLast (by simp)) :=
        List.getLast?_eq_getLast (a :: t) (by simp)
      have hmem : (a :: t).getLast (by simp) ∈ a :: t := List.getLast_mem (by simp)
      have hobj : ∀ u ∈ a :: t, (match u with | Json.obj _ => true | _ => false) = true := by
        simpa [App.validUpdates, List.all_eq_true] using h
      have hm := hobj _ hmem
      cases hl : (a :: t).getLast (by simp) with
      | obj lfs =>
        simp [App.extract_latest_update, hu, truthy, hlast, hl, exceptOk_ite_ok]
      | null => rw [hl] at hm; simp at hm
      | bool b => rw [hl] at hm; simp at hm
      | num n => rw [hl] at hm; simp at hm
      | str s => rw [hl] at hm; simp at hm
      | arr ys => rw [hl] at hm; simp at hm

/-- Truthiness on `null` (Python `None`). -/
theorem truthy_null : truthy Json.null = false := rfl

/-- Truthiness on strings: non-emptiness. -/
theorem truthy_str (s : String) : truthy (Json.str s) = (s != "") := rfl

/-- Truthiness on objects: non-emptiness of the field list. -/
theorem truthy_obj (fs : List (String × Json)) : truthy (Json.obj fs) = !fs.isEmpty := rfl

/-- Truthiness on arrays: non-emptiness of the element list. -/
theorem truthy_arr (xs : List Json) : truthy (Json.arr xs) = !xs.isEmpty := rfl

/-- The status-description resolution cannot raise when `impact` is null
or a string and `incident_status` is a string. -/
theorem resolve_ok (psd impact ist : Json)
    (himp : impact = Json.null ∨ ∃ s, impact = Json.str s)
    (hist : ∃ s, ist = Json.str s) :
    exceptOk (App.resolve_status_description psd impact ist) = true := by
  obtain ⟨si, rfl⟩ := hist
  by_cases hp : truthy psd = true
  · simp [App.resolve_status_description, hp, exceptOk]
  · have hp2 : truthy psd = false := by simpa using hp
    rcases himp with rfl | ⟨s, rfl⟩
    · simp [App.resolve_status_description, hp2, truthy_null, exceptOk]
    · by_cases hs : s = ""
      · subst hs
        simp [App.resolve_status_description, hp2, truthy_str, truthy_null, exceptOk]
      · have hne : pyCapitalize s ++ " impact" ≠ "" := by
          intro hcon
          have hlen := congrArg String.length hcon
          simp [String.length_append] at hlen
          exact absurd hlen.2 (by decide)
        simp [App.resolve_status_description, hp2, truthy_str, bne_iff_ne, hs, hne, exceptOk]

/-- On every payload of the documented shape the webhook handler
acknowledges (emitting exactly one log line): no exception path and no
400 path is reachable. -/
theorem handler_ok_of_valid (p : Json) (hp : App.validPayload p = true) :
    (App.handle_openai_status (some p)).isOk = true := by
  cases p with
  | null => simp [App.validPayload] at hp
  | bool b => simp [App.validPayload] at hp
  | num n => simp [App.validPayload] at hp
  | str s => simp [App.validPayload] at hp
  | arr xs => simp [App.validPayload] at hp
  | obj fields =>
    rw [App.validPayload, Bool.and_eq_true] at hp
    obtain ⟨hinc, hpage⟩ := hp
    cases hI : (dictGet fields "incident").getD Json.null with
    | null => rw [hI] at hinc; simp at hinc
    | bool b => rw [hI] at hinc; simp at hinc
    | num n => rw [hI] at hinc; simp at hinc
    | str s => rw [hI] at hinc; simp at hinc
    | arr xs => rw [hI] at hinc; simp at hinc
    | obj ifs =>
      rw [hI] at hinc
      simp only [Bool.and_eq_true] at hinc
      obtain ⟨⟨⟨hne, hstat⟩, himp0⟩, hupd⟩ := hinc
      have hist : ∃ s, (dictGet ifs "status").getD (Json.str "unknown") = Json.str s := by
        cases hst : dictGet ifs "status" with
        | none => exact ⟨"unknown", rfl⟩
        | some v =>
          rw [hst] at hstat
          cases v with
          | str s => exact ⟨s, rfl⟩
          | null => simp at hstat
          | bool b => simp at hstat
          | num n => simp at hstat
          | arr xs => simp at hstat
          | obj fs => simp at hstat
      have himp : (dictGet ifs "impact").getD Json.null = Json.null ∨
          ∃ s, (dictGet ifs "impact").getD Json.null = Json.str s := by
        cases hmp : dictGet ifs "impact" with
        | none => exact Or.inl rfl
        | some v =>
          rw [hmp] at himp0
          cases v with
          | null => exact Or.inl rfl
          | str s => exact Or.inr ⟨s, rfl⟩
          | bool b => simp at himp0
          | num n => simp at himp0
          | arr xs => simp at himp0
          | obj fs => simp at himp0
      have hext := extract_ok_of_validUpdates ifs hupd
      obtain ⟨v, hv⟩ := exists_of_exceptOk _ hext
      have htr : truthy ((dictGet fields "incident").getD Json.null) = true := by
        rw [hI, truthy_obj]
        exact hne
      obtain ⟨pfs, hpfs⟩ : ∃ pfs, (dictGet fields "page").getD (Json.obj []) = Json.obj pfs := by
        cases hpg : dictGet fields "page" with
        | none => exact ⟨[], rfl⟩
        | some w =>
          rw [hpg] at hpage
          cases w with
          | obj pfs => exact ⟨pfs, rfl⟩
          | null => simp at hpage
          | bool b => simp at hpage
          | num n => simp at hpage
          | str s => simp at hpage
          | arr xs => simp at hpage
      have hres := resolve_ok ((dictGet pfs "status_description").getD Json.null)
        ((dictGet ifs "impact").getD Json.null)
        ((dictGet ifs "status").getD (Json.str "unknown")) himp hist
      obtain ⟨d, hd⟩ := exists_of_exceptOk _ hres
      simp only [App.handle_openai_status, htr, Bool.true_eq_false, if_false, hI, hpfs, hv, hd,
        truthy_obj, hne]
      rfl

/-- C5 counterexample: the payload parsing to the JSON array `[1]` is
valid JSON yet lacks an "incident" object, but the handler does not fail
with the 400 client error: `payload.get("incident")` raises
AttributeError on a list, an uncaught exception (server error), and no
acknowledgment is returned. -/
theorem webhook_array_payload_not_client_error :
    App.handle_openai_status (some (Json.arr [Json.num 1])) = App.HandlerResult.crash ∧
    (App.handle_openai_status (some (Json.arr [Json.num 1]))).isClientError = false ∧
    (App.handle_openai_status (some (Json.arr [Json.num 1]))).isOk = false :=
  ⟨rfl, rfl, rfl⟩

/-- C5 (amended): an unparseable body fails with the 400 "Invalid JSON";
a payload parsing to a JSON object whose "incident" member is falsy or
absent fails with the 400 "No incident object in payload" (no log line
in either case); and every valid payload — a JSON object with a truthy
"incident" object whose fields have the documented shapes — is
acknowledged with exactly one formatted log entry emitted. -/
theorem webhook_validation_amended (fs : List (String × Json)) (p : Json)
    (hfs : truthy ((dictGet fs "incident").getD Json.null) = false)
    (hp : App.validPayload p = true) :
    App.handle_openai_status none = App.HandlerResult.malformed "Invalid JSON" ∧
    App.handle_openai_status (some (Json.obj fs))
      = App.HandlerResult.malformed "No incident object in payload" ∧
    (App.handle_openai_status (some p)).isOk = true := by
  refine ⟨rfl, ?_, handler_ok_of_valid p hp⟩
  simp [App.handle_openai_status, hfs]

/-- C5 witness: the three amended cases at concrete payloads. -/
theorem webhook_validation_amended_witness :
    App.handle_openai_status none = App.HandlerResult.malformed "Invalid JSON" ∧
    App.handle_openai_status (some (Json.obj [("page", Json.obj [])]))
      = App.HandlerResult.malformed "No incident object in payload" ∧
    (App.handle_openai_status
      (some (Json.obj [("incident", Json.obj [("name", Json.str "Chat Completions API latency")])]))).isOk = true :=
  webhook_validation_amended [("page", Json.obj [])]
    (Json.obj [("incident", Json.obj [("name", Json.str "Chat Completions API latency")])])
    rfl rfl

/-- C9: a payload whose "incident" key is present but bound to a falsy
value (null, `{}`, `""`, `0`, `false`, `[]`) is rejected exactly like a
payload with no "incident" key at all: the same 400 "No incident object
in payload". -/
theorem webhook_falsy_incident_same_rejection (fs : List (String × Json)) (v : Json)
    (hv : dictGet fs "incident" = some v) (hfv : truthy v = false) :
    App.handle_openai_status (some (Json.obj fs))
      = App.HandlerResult.malformed "No incident object in payload" ∧
    App.handle_openai_status (some (Json.obj fs))
      = App.handle_openai_status (some (Json.obj [])) := by
  have h : truthy ((dictGet fs "incident").getD Json.null) = false := by
    rw [hv]
    exact hfv
  have hmal : App.handle_openai_status (some (Json.obj fs))
      = App.HandlerResult.malformed "No incident object in payload" := by
    simp [App.handle_openai_status, h]
  exact ⟨hmal, hmal.trans (rfl : App.HandlerResult.malformed "No incident object in payload"
    = App.handle_openai_status (some (Json.obj [])))⟩

/-- C9 witness: `{"incident": {}}` is rejected like `{}`. -/
theorem webhook_falsy_incident_same_rejection_witness :
    App.handle_openai_status (some (Json.obj [("incident", Json.obj [])]))
      = App.HandlerResult.malformed "No incident object in payload" ∧
    App.handle_openai_status (some (Json.obj [("incident", Json.obj [])]))
      = App.handle_openai_status (some (Json.obj [])) :=
  webhook_falsy_incident_same_rejection [("incident", Json.obj [])] (Json.obj []) rfl rfl

/-- C6 counterexample: for a non-empty updates sequence whose last
element has an empty (falsy) "body", the extracted value is NOT the body
of the last element — `latest.get("body") or ...` falls back to the
fallback string embedding that update's status. -/
theorem extract_falsy_body_not_taken :
    App.extract_latest_update
        [("incident_updates", Json.arr [Json.obj [("body", Json.str ""), ("status", Json.str "monitoring")]])]
      = Except.ok (Json.str "Incident status: monitoring") ∧
    App.extract_latest_update
        [("incident_updates", Json.arr [Json.obj [("body", Json.str ""), ("status", Json.str "monitoring")]])]
      ≠ Except.ok (Json.str "") := by
  have h1 : App.extract_latest_update
      [("incident_updates", Json.arr [Json.obj [("body", Json.str ""), ("status", Json.str "monitoring")]])]
      = Except.ok (Json.str "Incident status: monitoring") := rfl
  refine ⟨h1, ?_⟩
  rw [h1]
  simp

/-- C6 (amended): with an absent or falsy updates sequence the extracted
latest-update body is the fallback string embedding the incident's own
status; with a non-empty updates list whose last element is a dict, the
last element's "body" is taken when truthy, and otherwise the fallback
string embedding that last update's status (not the incident's) is
produced. -/
theorem extract_latest_update_amended (ifs jfs : List (String × Json))
    (xs : List Json) (lfs : List (String × Json)) (body : Json)
    (h0 : truthy ((dictGet ifs "incident_updates").getD Json.null) = false)
    (h1 : dictGet jfs "incident_updates" = some (Json.arr xs))
    (h2 : xs.getLast? = some (Json.obj lfs))
    (h3 : dictGet lfs "body" = some body) :
    App.extract_latest_update ifs
      = Except.ok (Json.str ("Incident status: " ++ pyStr ((dictGet ifs "status").getD (Json.str "unknown")))) ∧
    (truthy body = true → App.extract_latest_update jfs = Except.ok body) ∧
    (truthy body = false → App.extract_latest_update jfs
      = Except.ok (Json.str ("Incident status: " ++ pyStr ((dictGet lfs "status").getD (Json.str "unknown"))))) := by
  have hxs : xs ≠ [] := by
    intro hnil
    rw [hnil] at h2
    simp at h2
  have htx : truthy (Json.arr xs) = true := by
    cases xs with
    | nil => exact absurd rfl hxs
    | cons a t => rfl
  refine ⟨?_, ?_, ?_⟩
  · simp [App.extract_latest_update, h0, truthy_arr]
  · intro hb
    simp [App.extract_latest_update, h1, htx, h2, h3, hb]
  · intro hb
    simp [App.extract_latest_update, h1, htx, h2, h3, hb]

/-- C6 witness: the amended behaviour at concrete incidents — no updates
(fallback from the incident status), and a last update with the truthy
body "A fix has been implemented". -/
theorem extract_latest_update_amended_witness :
    App.extract_latest_update [("status", Json.str "investigating")]
      = Except.ok (Json.str ("Incident status: "
          ++ pyStr ((dictGet [("status", Json.str "investigating")] "status").getD (Json.str "unknown")))) ∧
    (truthy (Json.str "A fix has been implemented") = true →
      App.extract_latest_update
          [("incident_updates", Json.arr [Json.obj [("body", Json.str "A fix has been implemented")]])]
        = Except.ok (Json.str "A fix has been implemented")) ∧
    (truthy (Json.str "A fix has been implemented") = false →
      App.extract_latest_update
          [("incident_updates", Json.arr [Json.obj [("body", Json.str "A fix has been implemented")]])]
        = Except.ok (Json.str ("Incident status: "
            ++ pyStr ((dictGet [("body", Json.str "A fix has been implemented")] "status").getD (Json.str "unknown"))))) :=
  extract_latest_update_amended
    [("status", Json.str "investigating")]
    [("incident_updates", Json.arr [Json.obj [("body", Json.str "A fix has been implemented")]])]
    [Json.obj [("body", Json.str "A fix has been implemented")]]
    [("body", Json.str "A fix has been implemented")]
    (Json.str "A fix has been implemented")
    rfl rfl rfl rfl

/-- C7: the status description used in the log line is resolved by
short-circuit `or`: a truthy page-level description wins; otherwise a
non-empty impact yields its capitalization suffixed with " impact";
otherwise the capitalized incident status is used — and the incident
status itself defaults to the literal "unknown" when the field is
absent. -/
theorem status_description_resolution_order (psd : Json) (impact ist : String)
    (ifs : List (String × Json)) (hno : dictGet ifs "status" = none) :
    (truthy psd = true →
      App.resolve_status_description psd (Json.str impact) (Json.str ist) = Except.ok psd) ∧
    (truthy psd = false → impact ≠ "" →
      App.resolve_status_description psd (Json.str impact) (Json.str ist)
        = Except.ok (Json.str (pyCapitalize impact ++ " impact"))) ∧
    (truthy psd = false → impact = "" →
      App.resolve_status_description psd (Json.str impact) (Json.str ist)
        = Except.ok (Json.str (pyCapitalize ist))) ∧
    (dictGet ifs "status").getD (Json.str "unknown") = Json.str "unknown" := by
  refine ⟨?_, ?_, ?_, by simp [hno]⟩
  · intro h
    simp [App.resolve_status_description, h]
  · intro h hni
    have hne : pyCapitalize impact ++ " impact" ≠ "" := by
      intro hcon
      have hlen := congrArg String.length hcon
      simp [String.length_append] at hlen
      exact absurd hlen.2 (by decide)
    simp [App.resolve_status_description, h, truthy_str, bne_iff_ne, hni, hne]
  · intro h hi
    subst hi
    simp [App.resolve_status_description, h, truthy_str, truthy_null]

/-- C7 witness: with no page description, impact "major" wins over the
incident status and resolves to "Major impact". -/
theorem status_description_resolution_order_witness :
    (truthy Json.null = true →
      App.resolve_status_description Json.null (Json.str "major") (Json.str "monitoring") = Except.ok Json.null) ∧
    (truthy Json.null = false → "major" ≠ "" →
      App.resolve_status_description Json.null (Json.str "major") (Json.str "monitoring")
        = Except.ok (Json.str (pyCapitalize "major" ++ " impact"))) ∧
    (truthy Json.null = false → "major" = "" →
      App.resolve_status_description Json.null (Json.str "major") (Json.str "monitoring")
        = Except.ok (Json.str (pyCapitalize "monitoring"))) ∧
    (dictGet [] "status").getD (Json.str "unknown") = Json.str "unknown" :=
  status_description_resolution_order Json.null "major" "monitoring" [] rfl

/-- C8 witness: a concrete two-record append run, read back in order and
decoded intact. -/
theorem log_store_roundtrip_witness :
    Monitor.appendRun none [⟨"t1", "p1", "e1", "s1"⟩, ⟨"t2", "p2", "e2", "s2"⟩]
      = Except.ok (Json.arr ([⟨"t1", "p1", "e1", "s1"⟩, ⟨"t2", "p2", "e2", "s2"⟩].map Monitor.recordJson)) ∧
    (([⟨"t1", "p1", "e1", "s1"⟩, ⟨"t2", "p2", "e2", "s2"⟩] : List Monitor.LogRecord).map Monitor.recordJson).length
      = ([⟨"t1", "p1", "e1", "s1"⟩, ⟨"t2", "p2", "e2", "s2"⟩] : List Monitor.LogRecord).length ∧
    (([⟨"t1", "p1", "e1", "s1"⟩, ⟨"t2", "p2", "e2", "s2"⟩] : List Monitor.LogRecord).map Monitor.recordJson).map Monitor.decodeRecord
      = ([⟨"t1", "p1", "e1", "s1"⟩, ⟨"t2", "p2", "e2", "s2"⟩] : List Monitor.LogRecord).map some :=
  log_store_roundtrip [⟨"t1", "p1", "e1", "s1"⟩, ⟨"t2", "p2", "e2", "s2"⟩]
